import Mathlib

/-!
Shallow embedding of `src/userdir/rpi_controleller.py` (class `RPIController`).

The controller keeps a dictionary `ssh_stds` mapping a session key
("operation", "sensor", "dynamixel") to the `(stdin, stdout, stderr)` triple
returned by `client.exec_command`, and an optional supervisor RPC proxy
`sv_server`.  Remote side effects (SCP file pushes, command execution, writes
to a session's stdin, stream closes, RPC calls) are modelled as an explicit
trace of `Event`s; fallible operations return `Except PyError`.

The dictionary is modelled as an association list with Python-dict update
semantics (assignment replaces the value of an existing key in place,
otherwise appends; `pop` removes the entry).
-/

set_option autoImplicit false

namespace RPI

/-- Observable remote-side effects of the controller's methods. -/
inductive Event where
  /-- An `scpc.put(localPath, remotePath)` call. -/
  | scpPut (localPath remotePath : String) : Event
  /-- A `client.exec_command(cmd, get_pty=True)` call. -/
  | execCommand (cmd : String) : Event
  /-- A `print(data, file=stds[0], end='')` write into session `key`'s stdin. -/
  | writeStdin (key : String) (data : String) : Event
  /-- A `stds[0].close()` on session `key`'s stdin stream. -/
  | closeStdin (key : String) : Event
  /-- Construction of a `ServerProxy` (a fresh supervisor handle id). -/
  | bindServerProxy (handle : Nat) : Event
  /-- A `supervisor.getProcessInfo(svc)` RPC. -/
  | rpcGetProcessInfo (svc : String) : Event
  /-- A `supervisor.stopProcess(svc, True)` RPC. -/
  | rpcStopProcess (svc : String) : Event
  /-- A `supervisor.startProcess(svc, True)` RPC. -/
  | rpcStartProcess (svc : String) : Event
  /-- The `client.close()` call in the destructor. -/
  | closeClient : Event
deriving DecidableEq

/-- Errors the Python code can raise in the modelled paths. -/
inductive PyError where
  /-- Attribute access on `None` or on an object missing the attribute. -/
  | attributeError : PyError
  /-- A `d[k]` lookup on a dict missing key `k`. -/
  | keyError (k : String) : PyError
  /-- An `scp.SCPClient.put` failure for a local file. -/
  | transferError (localPath : String) : PyError
deriving DecidableEq

/-- State of a paramiko channel as observed by `get_stdout` and `__del__`:
the `exit_status_ready()` / `recv_ready()` flags, whether a zero-timeout
`select.select` reports the channel readable, the pending bytes available to
`recv`, and the `closed` flag. -/
structure Channel where
  exitStatusReady : Bool
  recvReady : Bool
  selectReadable : Bool
  pending : List Nat
  closed : Bool
deriving DecidableEq

/-- The `(stdin, stdout, stderr)` triple returned by `exec_command`: all three
files share one underlying channel; we track the stdin file's closed flag and
the shared channel state. -/
structure Session where
  stdinFileClosed : Bool
  channel : Channel
deriving DecidableEq

/-- The `rl, wl, xl = select.select([channel], [], [], 0.0)` read list. -/
def select0 (ch : Channel) : List Channel :=
  if ch.selectReadable then [ch] else []

/-- A `channel.recv(n)` call: at most `n` bytes from the pending data. -/
def Channel.recv (ch : Channel) (n : Nat) : List Nat :=
  ch.pending.take n

/-- The `.decode("utf-8")` of a byte chunk; modelled byte-for-char (exact for
the single-byte range). -/
def decodeBytes (bs : List Nat) : String :=
  String.mk (bs.map Char.ofNat)

/-- Embedding of `RPIController.get_stdout` (lines 168-174): a non-blocking
read returning at most one 2048-byte chunk, or `""`. -/
def get_stdout (stdout : Channel) : String :=
  if !stdout.exitStatusReady then
    if stdout.recvReady then
      let rl := select0 stdout
      if rl.length > 0 then
        decodeBytes (stdout.recv 2048)
      else ""
    else ""
  else ""

/-- Python dict assignment `d[k] = v` on an association list: replaces the
value of an existing key in place, otherwise appends the new entry. -/
def dictInsert (d : List (String × Session)) (k : String) (v : Session) :
    List (String × Session) :=
  if d.any (fun p => p.1 == k) then
    d.map (fun p => if p.1 == k then (k, v) else p)
  else
    d ++ [(k, v)]

/-- Python dict lookup `d[k]`, as an `Option`. -/
def dictGet? (d : List (String × Session)) (k : String) : Option Session :=
  (d.find? (fun p => p.1 == k)).map (fun p => p.2)

/-- Python `k in d`. -/
def dictMem (d : List (String × Session)) (k : String) : Bool :=
  d.any (fun p => p.1 == k)

/-- Python `d.pop(k)`'s effect on the dict: removes every entry with key `k`
(a dict holds at most one). -/
def dictPop (d : List (String × Session)) (k : String) : List (String × Session) :=
  d.filter (fun p => p.1 != k)

/-- Mutable state of an `RPIController` after successful construction:
configuration read from the settings file, the `ssh_stds` session dict, the
optional `sv_server` supervisor proxy (identified by a handle id), and a
freshness counter used to give each constructed proxy a distinct id. -/
structure RPIState where
  username : String
  robotname : String
  hostname : String
  password : String
  ssh_stds : List (String × Session)
  sv_server : Option Nat
  nextHandle : Nat
deriving DecidableEq

/-- State right after `__init__` (lines 49 and 52): empty session dict,
`sv_server = None`. -/
def RPIState.init (username robotname hostname password : String) : RPIState :=
  { username := username, robotname := robotname, hostname := hostname,
    password := password, ssh_stds := [], sv_server := none, nextHandle := 0 }

/-- The `sv_service_name` attribute (line 53). -/
def sv_service_name : String := "run_robot"

/-- The `source_command` attribute (lines 45-46). -/
def source_command (username : String) : String :=
  "source /home/" ++ username ++ "/.ros_rc && source /home/" ++ username ++
    "/catkin_ws/devel/setup.bash"

/-- The ETX interrupt character written by the disconnect methods and the
destructor: `'\x03'`. -/
def etx : String := "\x03"

/-- Embedding of `RPIController.start_robot` (lines 104-111).  The
`statename` argument is the `'statename'` field the remote supervisor returns
from `getProcessInfo`.  Note the `ServerProxy` is constructed unconditionally
on every call. -/
def start_robot (st : RPIState) (statename : String) : RPIState × List Event :=
  let h := st.nextHandle
  let st1 := { st with sv_server := some h, nextHandle := st.nextHandle + 1 }
  let evs :=
    [Event.bindServerProxy h, Event.rpcGetProcessInfo sv_service_name] ++
    (if statename = "RUNNING" then [Event.rpcStopProcess sv_service_name] else []) ++
    [Event.rpcStartProcess sv_service_name]
  (st1, evs)

/-- Embedding of `RPIController.stop_robot` (lines 113-116):
`self.sv_server.supervisor.stopProcess(...)` raises `AttributeError` when
`sv_server` is still `None`. -/
def stop_robot (st : RPIState) : Except PyError (RPIState × List Event) :=
  match st.sv_server with
  | none => Except.error PyError.attributeError
  | some _ => Except.ok (st, [Event.rpcStopProcess sv_service_name])

/-- The remote command built by `connect_sensor` (lines 129-130). -/
def sensor_command (username robotname : String) : String :=
  "bash -lc \"" ++ source_command username ++
    " && roslaunch sensor_pi sensor_pi.launch config_path:=/tmp/all_sensor.yaml namespace:=" ++
    robotname ++ "\""

/-- Embedding of `RPIController.connect_sensor` (lines 119-132): SCP the
config to `/tmp/all_sensor.yaml`, launch the sensor stack, store the returned
session triple under key `"sensor"`.  `s` is the session `exec_command`
returned. -/
def connect_sensor (st : RPIState) (sensor_config_path : String) (s : Session) :
    RPIState × List Event :=
  ({ st with ssh_stds := dictInsert st.ssh_stds "sensor" s },
   [Event.scpPut sensor_config_path "/tmp/all_sensor.yaml",
    Event.execCommand (sensor_command st.username st.robotname)])

/-- Embedding of `RPIController.disconnect_sensor` (lines 134-140): when key
`"sensor"` is present, write ETX to its stdin, close the stdin stream, and
pop the key; otherwise do nothing. -/
def disconnect_sensor (st : RPIState) : RPIState × List Event :=
  if dictMem st.ssh_stds "sensor" then
    ({ st with ssh_stds := dictPop st.ssh_stds "sensor" },
     [Event.writeStdin "sensor" etx, Event.closeStdin "sensor"])
  else
    (st, [])

/-- The remote command built by `connect_dynamixel` (lines 155-156). -/
def dynamixel_command (username robotname : String) : String :=
  "bash -lc \"" ++ source_command username ++
    " && roslaunch dynamixel_irsl controllers.launch dynamixel_settings:=/tmp/config.yaml controller_settings:=/tmp/controller_config.yaml namespace:=" ++
    robotname ++ "\""

/-- Embedding of `RPIController.connect_dynamixel` (lines 142-158). -/
def connect_dynamixel (st : RPIState)
    (dynamimxel_config controller_config : String) (s : Session) :
    RPIState × List Event :=
  ({ st with ssh_stds := dictInsert st.ssh_stds "dynamixel" s },
   [Event.scpPut dynamimxel_config "/tmp/config.yaml",
    Event.scpPut controller_config "/tmp/controller_config.yaml",
    Event.execCommand (dynamixel_command st.username st.robotname)])

/-- Embedding of `RPIController.discnnet_dynamixel` (lines 160-166). -/
def discnnet_dynamixel (st : RPIState) : RPIState × List Event :=
  if dictMem st.ssh_stds "dynamixel" then
    ({ st with ssh_stds := dictPop st.ssh_stds "dynamixel" },
     [Event.writeStdin "dynamixel" etx, Event.closeStdin "dynamixel"])
  else
    (st, [])

/-- Embedding of `RPIController.get_sensor_stdout` (lines 176-179):
`self.ssh_stds["sensor"]` raises `KeyError` when the key is absent. -/
def get_sensor_stdout (st : RPIState) : Except PyError String :=
  match dictGet? st.ssh_stds "sensor" with
  | none => Except.error (PyError.keyError "sensor")
  | some s => Except.ok (get_stdout s.channel)

/-- Embedding of `RPIController.get_dynaxmiel_stdout` (lines 181-184). -/
def get_dynaxmiel_stdout (st : RPIState) : Except PyError String :=
  match dictGet? st.ssh_stds "dynamixel" with
  | none => Except.error (PyError.keyError "dynamixel")
  | some s => Except.ok (get_stdout s.channel)

/-- The ternary `'true' if b else 'false'` used for the launch flags
(lines 82-84). -/
def pyBool (b : Bool) : String :=
  if b then "true" else "false"

/-- The `os.path.basename` of a path (last `/`-separated component). -/
def basename (path : String) : String :=
  (path.splitOn "/").getLastD path

/-- The dated destination directory `dist_dir` (lines 68-69). -/
def dist_dir (username date_string : String) : String :=
  "/home/" ++ username ++ "/cps_settings/" ++ date_string

/-- The stable symlink path `latest_dir` (lines 70-71). -/
def latest_dir (username : String) : String :=
  "/home/" ++ username ++ "/cps_settings/latest_settings"

/-- The `use_dynamixel:=.. use_sensor:=.. use_camera:=..` flag segment of the
launch arguments, each flag rendered by `pyBool` (note `use_actuator` feeds
the `use_dynamixel` argument). -/
def launch_flags (use_actuator use_sensor use_camera : Bool) : String :=
  "use_dynamixel:=" ++ pyBool use_actuator ++
    " use_sensor:=" ++ pyBool use_sensor ++
    " use_camera:=" ++ pyBool use_camera

/-- The `make_shell` string of `send_settings` (lines 86-88), after Python's
own escape processing: the written script traps SIGINT/SIGTERM/EXIT, sources
the environment, and launches `run_robot.launch` with the three boolean flags
rendered by `pyBool`.  Arguments follow the `.format(...)` order. -/
def make_shell (source_cmd username load_dynamixel load_controller robotname
    load_sensor : String) (use_actuator use_sensor use_camera : Bool)
    (dist : String) : String :=
  "echo -e 'trap \\\"trap - SIGTERM && kill -- -\\$\\$\\\" SIGINT SIGTERM EXIT\\n" ++
    source_cmd ++ " && roslaunch /home/" ++ username ++
    "/cps_rpi/launch/run_robot.launch dynamixel_settings:=" ++ load_dynamixel ++
    " controller_settings:=" ++ load_controller ++ " namespace:=" ++ robotname ++
    " sensor_config_path:=" ++ load_sensor ++ " " ++
    launch_flags use_actuator use_sensor use_camera ++
    " & \\nwait\\n' > " ++ dist ++ "/run_robot.sh"

/-- The composite remote command of `send_settings` (lines 89-90). -/
def send_settings_command (distDir latestDir shell : String) : String :=
  "bash -lc \"mkdir -p " ++ distDir ++ " && rm -f " ++ latestDir ++
    " && ln -s " ++ distDir ++ " " ++ latestDir ++ " && " ++ shell ++ "\""

/-- A sequence of `scpc.put(local, remote)` calls (lines 95-102): each file is
copied in list order; the first failing put aborts the batch, leaving the
earlier puts done and reporting the failing local path.  `putOk` is the
environment's verdict on each local file. -/
def putBatch (putOk : String → Bool) :
    List (String × String) → List Event × Option String
  | [] => ([], none)
  | (l, r) :: rest =>
    if putOk l then
      let res := putBatch putOk rest
      (Event.scpPut l r :: res.1, res.2)
    else
      ([], some l)

/-- Embedding of `RPIController.send_settings` (lines 56-102): build the
dated directory and launch script via one remote command registered under key
`"operation"`, then SCP the optional config files and the extra `send_files`.
`date_string` is the timestamp `datetime.now()` produced; `opSession` the
session `exec_command` returned; `putOk` the SCP success oracle.  Returns the
new state, the event trace, and the propagated error of a failed put. -/
def send_settings (st : RPIState) (date_string : String)
    (use_actuator use_sensor use_camera : Bool)
    (sensor_config_path dynamimxel_config controller_config : Option String)
    (send_files : List String) (opSession : Session) (putOk : String → Bool) :
    RPIState × List Event × Option PyError :=
  let distDir := dist_dir st.username date_string
  let latestDir := latest_dir st.username
  let shell := make_shell (source_command st.username) st.username
      (latestDir ++ "/config.yaml") (latestDir ++ "/controller_config.yaml")
      st.robotname (latestDir ++ "/all_sensor.yaml")
      use_actuator use_sensor use_camera distDir
  let st1 := { st with ssh_stds := dictInsert st.ssh_stds "operation" opSession }
  let pairs :=
    (match sensor_config_path with
     | some p => [(p, distDir ++ "/all_sensor.yaml")]
     | none => []) ++
    (match dynamimxel_config with
     | some p => [(p, distDir ++ "/config.yaml")]
     | none => []) ++
    (match controller_config with
     | some p => [(p, distDir ++ "/controller_config.yaml")]
     | none => []) ++
    send_files.map (fun f => (f, distDir ++ "/" ++ basename f))
  let res := putBatch putOk pairs
  (st1, Event.execCommand (send_settings_command distDir latestDir shell) :: res.1,
   res.2.map PyError.transferError)

/-- Attribute state of a possibly partially constructed controller, as the
destructor sees it: `__init__` sets `client` (line 40), `ssh_stds` (line 49)
and `sv_server` (line 52) in that order, so an exception during construction
can leave any suffix of them unset (`none` on the outer `Option` = attribute
never assigned; for `sv_server`, `some none` = assigned the value `None`). -/
structure PartialRPIState where
  ssh_stds : Option (List (String × Session))
  client : Bool
  sv_server : Option (Option Nat)
deriving DecidableEq

/-- The destructor's view of a fully constructed controller. -/
def RPIState.toPartial (st : RPIState) : PartialRPIState :=
  { ssh_stds := some st.ssh_stds, client := true, sv_server := some st.sv_server }

/-- Embedding of `RPIController.__del__` (lines 187-197): interrupt and close
every registered session whose channel is not already closed, close the SSH
client, and, when `sv_server` is not `None`, stop the robot service.  Each
attribute access on a never-assigned attribute raises `AttributeError`;
the returned trace holds the events performed before any such error. -/
def destructor (ps : PartialRPIState) : List Event × Option PyError :=
  match ps.ssh_stds with
  | none => ([], some PyError.attributeError)
  | some stds =>
    let evStds := stds.flatMap (fun p =>
      if !p.2.channel.closed then
        [Event.writeStdin p.1 etx, Event.closeStdin p.1]
      else [])
    if ps.client then
      match ps.sv_server with
      | none => (evStds ++ [Event.closeClient], some PyError.attributeError)
      | some none => (evStds ++ [Event.closeClient], none)
      | some (some _) =>
        (evStds ++ [Event.closeClient, Event.rpcStopProcess sv_service_name], none)
    else
      (evStds, some PyError.attributeError)

/-- States of a controller reachable from construction through the public
methods (each method applied with arbitrary arguments and environment
responses). -/
inductive Reachable : RPIState → Prop where
  | init (username robotname hostname password : String) :
      Reachable (RPIState.init username robotname hostname password)
  | send_settings {st : RPIState} (d : String) (ua us uc : Bool)
      (scp dyc ctc : Option String) (fs : List String) (ops : Session)
      (putOk : String → Bool) (h : Reachable st) :
      Reachable (send_settings st d ua us uc scp dyc ctc fs ops putOk).1
  | start_robot {st : RPIState} (statename : String) (h : Reachable st) :
      Reachable (start_robot st statename).1
  | connect_sensor {st : RPIState} (p : String) (s : Session) (h : Reachable st) :
      Reachable (connect_sensor st p s).1
  | disconnect_sensor {st : RPIState} (h : Reachable st) :
      Reachable (disconnect_sensor st).1
  | connect_dynamixel {st : RPIState} (p q : String) (s : Session) (h : Reachable st) :
      Reachable (connect_dynamixel st p q s).1
  | discnnet_dynamixel {st : RPIState} (h : Reachable st) :
      Reachable (discnnet_dynamixel st).1

/-- An event trace that neither writes into any session's stdin nor closes
any session stream: what "without signaling the old session" means. -/
def noSignalEvents (evs : List Event) : Prop :=
  ∀ e ∈ evs, (∀ k d, e ≠ Event.writeStdin k d) ∧ (∀ k, e ≠ Event.closeStdin k)

/-- A sample live channel with two pending bytes. -/
def sampleChannel : Channel :=
  { exitStatusReady := false, recvReady := true, selectReadable := true,
    pending := [104, 105], closed := false }

/-- A sample live session. -/
def sampleSession : Session :=
  { stdinFileClosed := false, channel := sampleChannel }

/-- A second, distinct sample session. -/
def sampleSession2 : Session :=
  { stdinFileClosed := false,
    channel := { exitStatusReady := true, recvReady := false,
                 selectReadable := false, pending := [], closed := true } }

/-- A sample controller state with a live `"sensor"` session. -/
def sampleConnected : RPIState :=
  (connect_sensor (RPIState.init "u" "r" "h" "pw") "cfg" sampleSession).1

/-! ### Dictionary lemmas -/

theorem find?_map_replace (d : List (String × Session)) (k : String) (v : Session)
    (h : d.any (fun p => p.1 == k) = true) :
    (d.map (fun p => if p.1 == k then (k, v) else p)).find? (fun p => p.1 == k) =
      some (k, v) := by
  induction d with
  | nil => simp at h
  | cons p t ih =>
    simp only [List.any_cons, Bool.or_eq_true] at h
    by_cases hp : (p.1 == k) = true
    · rw [List.map_cons, if_pos hp]
      exact List.find?_cons_of_pos _ (by simp)
    · rw [List.map_cons, if_neg hp, List.find?_cons_of_neg _ (by simpa using hp)]
      exact ih (h.resolve_left hp)

theorem dictGet?_dictInsert_self (d : List (String × Session)) (k : String)
    (v : Session) : dictGet? (dictInsert d k v) k = some v := by
  unfold dictGet? dictInsert
  by_cases h : d.any (fun p => p.1 == k) = true
  · rw [if_pos h, find?_map_replace d k v h, Option.map_some']
  · rw [if_neg h]
    have hd : d.find? (fun p => p.1 == k) = none := by
      rw [List.find?_eq_none]
      intro p hp hpk
      exact h (List.any_eq_true.mpr ⟨p, hp, hpk⟩)
    rw [List.find?_append, hd, Option.none_or]
    simp [List.find?_cons_of_pos]

theorem dictGet?_dictPop_self (d : List (String × Session)) (k : String) :
    dictGet? (dictPop d k) k = none := by
  unfold dictGet? dictPop
  rw [Option.map_eq_none', List.find?_eq_none]
  intro p hp
  have := List.of_mem_filter hp
  simp only [bne_iff_ne, ne_eq] at this
  simpa using this

theorem dictMem_eq_isSome (d : List (String × Session)) (k : String) :
    dictMem d k = (dictGet? d k).isSome := by
  unfold dictMem dictGet?
  induction d with
  | nil => rfl
  | cons p t ih =>
    by_cases hp : (p.1 == k) = true
    · simp [List.any_cons, hp, List.find?_cons_of_pos _ hp]
    · simp only [List.any_cons, List.find?_cons_of_neg _ hp]
      simpa [hp] using ih

theorem dictMem_dictInsert_self (d : List (String × Session)) (k : String)
    (v : Session) : dictMem (dictInsert d k v) k = true := by
  rw [dictMem_eq_isSome, dictGet?_dictInsert_self]
  rfl

theorem dictMem_dictPop_self (d : List (String × Session)) (k : String) :
    dictMem (dictPop d k) k = false := by
  rw [dictMem_eq_isSome, dictGet?_dictPop_self]
  rfl

theorem map_fst_map_replace (d : List (String × Session)) (k : String)
    (v : Session) :
    (d.map (fun p => if p.1 == k then (k, v) else p)).map Prod.fst =
      d.map Prod.fst := by
  induction d with
  | nil => rfl
  | cons p t ih =>
    by_cases hp : (p.1 == k) = true
    · simp only [List.map_cons, if_pos hp, ih, List.cons.injEq, and_true]
      exact (eq_of_beq hp).symm
    · simp only [List.map_cons, if_neg hp, ih]

theorem keys_dictInsert_nodup (d : List (String × Session)) (k : String)
    (v : Session) (h : (d.map Prod.fst).Nodup) :
    ((dictInsert d k v).map Prod.fst).Nodup := by
  unfold dictInsert
  by_cases ha : d.any (fun p => p.1 == k) = true
  · rw [if_pos ha, map_fst_map_replace]
    exact h
  · rw [if_neg ha, List.map_append]
    simp only [List.map_cons, List.map_nil]
    rw [List.nodup_append]
    refine ⟨h, List.nodup_singleton _, ?_⟩
    intro a ha' hb
    simp only [List.mem_singleton] at hb
    subst hb
    rcases List.mem_map.mp ha' with ⟨p, hp, hpk⟩
    exact ha (List.any_eq_true.mpr ⟨p, hp, by simp [hpk]⟩)

theorem keys_dictPop_nodup (d : List (String × Session)) (k : String)
    (h : (d.map Prod.fst).Nodup) : ((dictPop d k).map Prod.fst).Nodup :=
  h.sublist (List.Sublist.map Prod.fst (List.filter_sublist d))

theorem send_settings_trace (st : RPIState) (d : String) (ua us uc : Bool)
    (scp dyc ctc : Option String) (fs : List String) (s : Session)
    (putOk : String → Bool) :
    (send_settings st d ua us uc scp dyc ctc fs s putOk).2.1 =
      Event.execCommand (send_settings_command (dist_dir st.username d)
        (latest_dir st.username)
        (make_shell (source_command st.username) st.username
          (latest_dir st.username ++ "/config.yaml")
          (latest_dir st.username ++ "/controller_config.yaml")
          st.robotname (latest_dir st.username ++ "/all_sensor.yaml")
          ua us uc (dist_dir st.username d))) ::
        (putBatch putOk
          ((match scp with
            | some pp => [(pp, dist_dir st.username d ++ "/all_sensor.yaml")]
            | none => []) ++
           (match dyc with
            | some pp => [(pp, dist_dir st.username d ++ "/config.yaml")]
            | none => []) ++
           (match ctc with
            | some pp =>
                [(pp, dist_dir st.username d ++ "/controller_config.yaml")]
            | none => []) ++
           fs.map (fun f => (f, dist_dir st.username d ++ "/" ++ basename f)))).1 :=
  rfl

theorem putBatch_events_scpPut (putOk : String → Bool) :
    ∀ (prs : List (String × String)),
      ∀ e ∈ (putBatch putOk prs).1, ∃ l r, e = Event.scpPut l r
  | [] => by
    intro e he
    simp [putBatch] at he
  | (l, r) :: rest => by
    intro e he
    by_cases h : putOk l = true
    · rw [show putBatch putOk ((l, r) :: rest) =
          (Event.scpPut l r :: (putBatch putOk rest).1, (putBatch putOk rest).2) by
            simp [putBatch, h]] at he
      rw [List.mem_cons] at he
      rcases he with he | he
      · exact ⟨l, r, he⟩
      · exact putBatch_events_scpPut putOk rest e he
    · simp [putBatch, h] at he

theorem reachable_keys_nodup {st : RPIState} (h : Reachable st) :
    (st.ssh_stds.map Prod.fst).Nodup := by
  induction h with
  | init u r hn pw => simp [RPIState.init]
  | send_settings d ua us uc scp dyc ctc fs ops putOk h ih =>
    exact keys_dictInsert_nodup _ _ _ ih
  | start_robot statename h ih => exact ih
  | connect_sensor p s h ih => exact keys_dictInsert_nodup _ _ _ ih
  | disconnect_sensor h ih =>
    rename_i st'
    by_cases hm : dictMem st'.ssh_stds "sensor" = true
    · simpa [disconnect_sensor, hm] using keys_dictPop_nodup _ _ ih
    · simpa [disconnect_sensor, hm] using ih
  | connect_dynamixel p q s h ih => exact keys_dictInsert_nodup _ _ _ ih
  | discnnet_dynamixel h ih =>
    rename_i st'
    by_cases hm : dictMem st'.ssh_stds "dynamixel" = true
    · simpa [discnnet_dynamixel, hm] using keys_dictPop_nodup _ _ ih
    · simpa [discnnet_dynamixel, hm] using ih

/-! ### Claims -/

/-- C1: for each session key ("sensor", "dynamixel"), connect followed by
disconnect leaves the registry with no entry under that key; the disconnect
writes the ETX character 0x03 into the session's stdin and then closes it,
removing the key; and a second disconnect from the Absent state changes
nothing and emits no events. -/
theorem C1_connect_then_disconnect (st : RPIState) (cfg dyc ctc : String)
    (s : Session) :
    (dictGet? (disconnect_sensor (connect_sensor st cfg s).1).1.ssh_stds
        "sensor" = none ∧
      (disconnect_sensor (connect_sensor st cfg s).1).2 =
        [Event.writeStdin "sensor" (String.mk [Char.ofNat 3]),
         Event.closeStdin "sensor"] ∧
      disconnect_sensor (disconnect_sensor (connect_sensor st cfg s).1).1 =
        ((disconnect_sensor (connect_sensor st cfg s).1).1, [])) ∧
    (dictGet? (discnnet_dynamixel (connect_dynamixel st dyc ctc s).1).1.ssh_stds
        "dynamixel" = none ∧
      (discnnet_dynamixel (connect_dynamixel st dyc ctc s).1).2 =
        [Event.writeStdin "dynamixel" (String.mk [Char.ofNat 3]),
         Event.closeStdin "dynamixel"] ∧
      discnnet_dynamixel (discnnet_dynamixel (connect_dynamixel st dyc ctc s).1).1 =
        ((discnnet_dynamixel (connect_dynamixel st dyc ctc s).1).1, [])) := by
  have hetx : etx = String.mk [Char.ofNat 3] := by decide
  constructor
  · have hmem : dictMem (connect_sensor st cfg s).1.ssh_stds "sensor" = true :=
      dictMem_dictInsert_self _ _ _
    have hstep : disconnect_sensor (connect_sensor st cfg s).1 =
        ({ (connect_sensor st cfg s).1 with
            ssh_stds := dictPop (connect_sensor st cfg s).1.ssh_stds "sensor" },
         [Event.writeStdin "sensor" etx, Event.closeStdin "sensor"]) := by
      rw [disconnect_sensor, if_pos hmem]
    refine ⟨?_, ?_, ?_⟩
    · rw [hstep]
      exact dictGet?_dictPop_self _ _
    · rw [hstep, hetx]
    · have hgone : dictMem (disconnect_sensor (connect_sensor st cfg s).1).1.ssh_stds
          "sensor" = false := by
        rw [hstep]
        exact dictMem_dictPop_self _ _
      rw [disconnect_sensor, if_neg (by simp [hgone])]
  · have hmem : dictMem (connect_dynamixel st dyc ctc s).1.ssh_stds "dynamixel" =
        true := dictMem_dictInsert_self _ _ _
    have hstep : discnnet_dynamixel (connect_dynamixel st dyc ctc s).1 =
        ({ (connect_dynamixel st dyc ctc s).1 with
            ssh_stds := dictPop (connect_dynamixel st dyc ctc s).1.ssh_stds "dynamixel" },
         [Event.writeStdin "dynamixel" etx, Event.closeStdin "dynamixel"]) := by
      rw [discnnet_dynamixel, if_pos hmem]
    refine ⟨?_, ?_, ?_⟩
    · rw [hstep]
      exact dictGet?_dictPop_self _ _
    · rw [hstep, hetx]
    · have hgone : dictMem
          (discnnet_dynamixel (connect_dynamixel st dyc ctc s).1).1.ssh_stds
          "dynamixel" = false := by
        rw [hstep]
        exact dictMem_dictPop_self _ _
      rw [discnnet_dynamixel, if_neg (by simp [hgone])]

/-- C2: `get_stdout` returns a string and never waits: when the remote
command has not exited, the readiness flag is set and the zero-timeout select
reports the channel readable, it returns exactly one chunk of at most 2048
bytes, decoded; in every other case it returns `""`. -/
theorem C2_get_stdout_nonblocking (ch : Channel) :
    (ch.exitStatusReady = false → ch.recvReady = true →
      ch.selectReadable = true →
      get_stdout ch = decodeBytes (ch.pending.take 2048) ∧
        (get_stdout ch).length ≤ 2048) ∧
    (ch.exitStatusReady = true ∨ ch.recvReady = false ∨
      ch.selectReadable = false → get_stdout ch = "") := by
  constructor
  · intro h1 h2 h3
    have heq : get_stdout ch = decodeBytes (ch.pending.take 2048) := by
      simp [get_stdout, select0, Channel.recv, h1, h2, h3]
    refine ⟨heq, ?_⟩
    rw [heq]
    have hlen : (decodeBytes (ch.pending.take 2048)).length =
        (ch.pending.take 2048).length := by
      simp [decodeBytes, String.length]
    rw [hlen]
    exact List.length_take_le _ _
  · intro h
    rcases h with h | h | h <;> simp [get_stdout, select0, h]

/-- C2 witness: a live channel with pending data yields the decoded bounded
chunk; an exited channel yields the empty string. -/
theorem C2_get_stdout_nonblocking_witness :
    (get_stdout ⟨false, true, true, [104, 105], false⟩ =
        decodeBytes ([104, 105].take 2048) ∧
      (get_stdout ⟨false, true, true, [104, 105], false⟩).length ≤ 2048) ∧
    get_stdout ⟨true, true, true, [104, 105], false⟩ = "" :=
  ⟨(C2_get_stdout_nonblocking ⟨false, true, true, [104, 105], false⟩).1
      rfl rfl rfl,
   (C2_get_stdout_nonblocking ⟨true, true, true, [104, 105], false⟩).2
      (Or.inl rfl)⟩

/-- C3: when the supervisor reports `run_robot` as RUNNING, `start_robot`
issues exactly one stopProcess and exactly one startProcess, the stop before
the start; otherwise it issues exactly one startProcess and no stopProcess. -/
theorem C3_start_robot_stop_before_start (st : RPIState) (sn : String) :
    (sn = "RUNNING" →
      (start_robot st sn).2.count (Event.rpcStopProcess "run_robot") = 1 ∧
      (start_robot st sn).2.count (Event.rpcStartProcess "run_robot") = 1 ∧
      ∃ l1 l2 l3, (start_robot st sn).2 =
        l1 ++ Event.rpcStopProcess "run_robot" ::
          (l2 ++ Event.rpcStartProcess "run_robot" :: l3)) ∧
    (sn ≠ "RUNNING" →
      (start_robot st sn).2.count (Event.rpcStopProcess "run_robot") = 0 ∧
      (start_robot st sn).2.count (Event.rpcStartProcess "run_robot") = 1) := by
  constructor
  · intro h
    subst h
    have htr : (start_robot st "RUNNING").2 =
        [Event.bindServerProxy st.nextHandle,
         Event.rpcGetProcessInfo "run_robot",
         Event.rpcStopProcess "run_robot",
         Event.rpcStartProcess "run_robot"] := by
      simp [start_robot, sv_service_name]
    rw [htr]
    refine ⟨?_, ?_,
      [Event.bindServerProxy st.nextHandle, Event.rpcGetProcessInfo "run_robot"],
      [], [], rfl⟩
    · simp [List.count_cons]
    · simp [List.count_cons]
  · intro h
    have htr : (start_robot st sn).2 =
        [Event.bindServerProxy st.nextHandle,
         Event.rpcGetProcessInfo "run_robot",
         Event.rpcStartProcess "run_robot"] := by
      simp [start_robot, sv_service_name, h]
    rw [htr]
    constructor <;> simp [List.count_cons]

/-- C3 witness: the RUNNING branch stops then starts; the STOPPED branch only
starts. -/
theorem C3_start_robot_stop_before_start_witness :
    ((start_robot (RPIState.init "u" "r" "h" "pw") "RUNNING").2.count
        (Event.rpcStopProcess "run_robot") = 1 ∧
      (start_robot (RPIState.init "u" "r" "h" "pw") "RUNNING").2.count
        (Event.rpcStartProcess "run_robot") = 1 ∧
      ∃ l1 l2 l3, (start_robot (RPIState.init "u" "r" "h" "pw") "RUNNING").2 =
        l1 ++ Event.rpcStopProcess "run_robot" ::
          (l2 ++ Event.rpcStartProcess "run_robot" :: l3)) ∧
    ((start_robot (RPIState.init "u" "r" "h" "pw") "STOPPED").2.count
        (Event.rpcStopProcess "run_robot") = 0 ∧
      (start_robot (RPIState.init "u" "r" "h" "pw") "STOPPED").2.count
        (Event.rpcStartProcess "run_robot") = 1) :=
  ⟨(C3_start_robot_stop_before_start (RPIState.init "u" "r" "h" "pw")
      "RUNNING").1 rfl,
   (C3_start_robot_stop_before_start (RPIState.init "u" "r" "h" "pw")
      "STOPPED").2 (by decide)⟩

/-- C4 counterexample: the claim says the SupervisorClient is bound lazily
only if unbound and a second `start_robot` reuses the first handle; in the
code `start_robot` constructs a `ServerProxy` unconditionally on every call,
so a second call stores a new handle distinct from the first. -/
theorem C4_rebind_counterexample :
    (start_robot (RPIState.init "u" "r" "h" "pw") "STOPPED").1.sv_server =
        some 0 ∧
    (start_robot (start_robot (RPIState.init "u" "r" "h" "pw") "STOPPED").1
        "STOPPED").1.sv_server = some 1 ∧
    Event.bindServerProxy 1 ∈
      (start_robot (start_robot (RPIState.init "u" "r" "h" "pw") "STOPPED").1
        "STOPPED").2 ∧
    (start_robot (start_robot (RPIState.init "u" "r" "h" "pw") "STOPPED").1
        "STOPPED").1.sv_server ≠
      (start_robot (RPIState.init "u" "r" "h" "pw") "STOPPED").1.sv_server := by
  decide

/-- C4 amended: `start_robot` constructs and binds a fresh SupervisorClient
handle on every call, whether or not one is already bound; the stored handle
is the one from the most recent call, so a second call replaces rather than
reuses the first handle.  The handle then lives until the next call or the
controller's teardown. -/
theorem C4_rebind_amended (st : RPIState) (sn sn' : String) :
    (start_robot st sn).1.sv_server = some st.nextHandle ∧
    Event.bindServerProxy st.nextHandle ∈ (start_robot st sn).2 ∧
    (start_robot st sn).1.nextHandle = st.nextHandle + 1 ∧
    (start_robot (start_robot st sn).1 sn').1.sv_server ≠
      (start_robot st sn).1.sv_server := by
  refine ⟨rfl, by simp [start_robot], rfl, ?_⟩
  simp [start_robot]

/-- C5: at every reachable state the registry keys are unique, so it holds at
most one session per key; and launching a new session under an occupied key
silently replaces the stored reference — the connect traces write to no
session's stdin and close no stream. -/
theorem C5_registry_unique_silent_replace (st : RPIState) (h : Reachable st)
    (p q d : String) (ua us uc : Bool) (scp dyc ctc : Option String)
    (fs : List String) (s old : Session) (putOk : String → Bool) :
    (st.ssh_stds.map Prod.fst).Nodup ∧
    (dictGet? st.ssh_stds "sensor" = some old →
      dictGet? (connect_sensor st p s).1.ssh_stds "sensor" = some s) ∧
    (dictGet? st.ssh_stds "dynamixel" = some old →
      dictGet? (connect_dynamixel st p q s).1.ssh_stds "dynamixel" = some s) ∧
    (dictGet? st.ssh_stds "operation" = some old →
      dictGet? (send_settings st d ua us uc scp dyc ctc fs s putOk).1.ssh_stds
        "operation" = some s) ∧
    noSignalEvents (connect_sensor st p s).2 ∧
    noSignalEvents (connect_dynamixel st p q s).2 ∧
    noSignalEvents (send_settings st d ua us uc scp dyc ctc fs s putOk).2.1 := by
  refine ⟨reachable_keys_nodup h,
    fun _ => dictGet?_dictInsert_self _ _ _,
    fun _ => dictGet?_dictInsert_self _ _ _,
    fun _ => dictGet?_dictInsert_self _ _ _, ?_, ?_, ?_⟩
  · intro e he
    simp only [connect_sensor, List.mem_cons, List.mem_singleton,
      List.not_mem_nil, or_false] at he
    rcases he with he | he <;> subst he <;> exact ⟨by simp, by simp⟩
  · intro e he
    simp only [connect_dynamixel, List.mem_cons, List.mem_singleton,
      List.not_mem_nil, or_false] at he
    rcases he with he | he | he <;> subst he <;> exact ⟨by simp, by simp⟩
  · intro e he
    rw [send_settings_trace, List.mem_cons] at he
    rcases he with he | he
    · subst he
      exact ⟨by simp, by simp⟩
    · obtain ⟨l, r, rfl⟩ := putBatch_events_scpPut putOk _ e he
      exact ⟨by simp, by simp⟩

/-- C5 witness: a concrete reachable state with an occupied `"sensor"` key
has unique registry keys, and reconnecting under that key stores the new
session. -/
theorem C5_registry_unique_silent_replace_witness :
    (sampleConnected.ssh_stds.map Prod.fst).Nodup ∧
    dictGet? (connect_sensor sampleConnected "cfg2" sampleSession2).1.ssh_stds
      "sensor" = some sampleSession2 :=
  ⟨(C5_registry_unique_silent_replace sampleConnected
      (Reachable.connect_sensor "cfg" sampleSession
        (Reachable.init "u" "r" "h" "pw"))
      "cfg2" "q" "d" true true true none none none [] sampleSession2
      sampleSession (fun _ => true)).1,
   (C5_registry_unique_silent_replace sampleConnected
      (Reachable.connect_sensor "cfg" sampleSession
        (Reachable.init "u" "r" "h" "pw"))
      "cfg2" "q" "d" true true true none none none [] sampleSession2
      sampleSession (fun _ => true)).2.1 (by decide)⟩

/-- C6: the claim says teardown completes without error for every prior
state, including partially failed construction; but when `__init__` raised
before line 49 (e.g. `client.connect` failing at line 42, leaving `client`
assigned and `ssh_stds`, `sv_server` never assigned), `__del__` raises
`AttributeError` at `self.ssh_stds.items()` and performs no teardown at all. -/
theorem C6_del_after_failed_init_raises :
    destructor { ssh_stds := none, client := true, sv_server := none } =
      ([], some PyError.attributeError) := rfl

/-- C7: a freshly constructed controller has no supervisor bound;
`stop_robot` on an unbound controller fails (the `None.supervisor` access),
and on a bound controller issues exactly one stopProcess for `run_robot`. -/
theorem C7_stop_robot_unbound_fails (st : RPIState)
    (u r hn pw : String) :
    (RPIState.init u r hn pw).sv_server = none ∧
    (st.sv_server = none →
      stop_robot st = Except.error PyError.attributeError) ∧
    (∀ hdl : Nat, st.sv_server = some hdl →
      stop_robot st = Except.ok (st, [Event.rpcStopProcess "run_robot"])) := by
  refine ⟨rfl, fun h => ?_, fun hdl h => ?_⟩
  · simp [stop_robot, h]
  · simp [stop_robot, h, sv_service_name]

/-- C7 witness: the initial state fails; the state after one `start_robot`
succeeds with a single stopProcess. -/
theorem C7_stop_robot_unbound_fails_witness :
    stop_robot (RPIState.init "u" "r" "h" "pw") =
      Except.error PyError.attributeError ∧
    stop_robot (start_robot (RPIState.init "u" "r" "h" "pw") "STOPPED").1 =
      Except.ok ((start_robot (RPIState.init "u" "r" "h" "pw") "STOPPED").1,
        [Event.rpcStopProcess "run_robot"]) :=
  ⟨(C7_stop_robot_unbound_fails (RPIState.init "u" "r" "h" "pw")
      "u" "r" "h" "pw").2.1 rfl,
   (C7_stop_robot_unbound_fails
      (start_robot (RPIState.init "u" "r" "h" "pw") "STOPPED").1
      "u" "r" "h" "pw").2.2 0 rfl⟩

/-- C8: each launch flag is rendered as the literal `true`/`false` with
`use_actuator` feeding the `use_dynamixel` argument; for any flag values the
flag segment is a substring of the generated script, and for
use_actuator=true, use_sensor=false, use_camera=false the remote command
`send_settings` executes contains the argument substring
`use_dynamixel:=true use_sensor:=false use_camera:=false`. -/
theorem C8_launch_flags_rendered (st : RPIState) (d : String)
    (scp dyc ctc : Option String) (fs : List String) (ops : Session)
    (putOk : String → Bool) (src u ldc lcc rn lsc dist : String)
    (ua us uc : Bool) :
    launch_flags true false false =
      "use_dynamixel:=true use_sensor:=false use_camera:=false" ∧
    (launch_flags ua us uc).data <:+:
      (make_shell src u ldc lcc rn lsc ua us uc dist).data ∧
    ∃ cmd rest,
      (send_settings st d true false false scp dyc ctc fs ops putOk).2.1 =
        Event.execCommand cmd :: rest ∧
      "use_dynamixel:=true use_sensor:=false use_camera:=false".data <:+:
        cmd.data := by
  have hflags : ∀ (src u ldc lcc rn lsc dist : String) (ua us uc : Bool),
      (launch_flags ua us uc).data <:+:
        (make_shell src u ldc lcc rn lsc ua us uc dist).data := by
    intro src u ldc lcc rn lsc dist ua us uc
    have heq : make_shell src u ldc lcc rn lsc ua us uc dist =
        ("echo -e 'trap \\\"trap - SIGTERM && kill -- -\\$\\$\\\" SIGINT SIGTERM EXIT\\n" ++
          src ++ " && roslaunch /home/" ++ u ++
          "/cps_rpi/launch/run_robot.launch dynamixel_settings:=" ++ ldc ++
          " controller_settings:=" ++ lcc ++ " namespace:=" ++ rn ++
          " sensor_config_path:=" ++ lsc ++ " ") ++
        (launch_flags ua us uc ++
          (" & \\nwait\\n' > " ++ dist ++ "/run_robot.sh")) := by
      simp only [make_shell, String.append_assoc]
    refine ⟨("echo -e 'trap \\\"trap - SIGTERM && kill -- -\\$\\$\\\" SIGINT SIGTERM EXIT\\n" ++
        src ++ " && roslaunch /home/" ++ u ++
        "/cps_rpi/launch/run_robot.launch dynamixel_settings:=" ++ ldc ++
        " controller_settings:=" ++ lcc ++ " namespace:=" ++ rn ++
        " sensor_config_path:=" ++ lsc ++ " ").data,
      (" & \\nwait\\n' > " ++ dist ++ "/run_robot.sh").data, ?_⟩
    rw [heq]
    simp only [String.data_append, List.append_assoc]
  have hlit : launch_flags true false false =
      "use_dynamixel:=true use_sensor:=false use_camera:=false" := by decide
  refine ⟨hlit, hflags src u ldc lcc rn lsc dist ua us uc,
    send_settings_command (dist_dir st.username d) (latest_dir st.username)
      (make_shell (source_command st.username) st.username
        (latest_dir st.username ++ "/config.yaml")
        (latest_dir st.username ++ "/controller_config.yaml")
        st.robotname (latest_dir st.username ++ "/all_sensor.yaml")
        true false false (dist_dir st.username d)), _,
    send_settings_trace st d true false false scp dyc ctc fs ops putOk, ?_⟩
  have h1 : "use_dynamixel:=true use_sensor:=false use_camera:=false".data <:+:
      (make_shell (source_command st.username) st.username
        (latest_dir st.username ++ "/config.yaml")
        (latest_dir st.username ++ "/controller_config.yaml")
        st.robotname (latest_dir st.username ++ "/all_sensor.yaml")
        true false false (dist_dir st.username d)).data := by
    rw [← hlit]
    exact hflags _ _ _ _ _ _ _ true false false
  have h2 : (make_shell (source_command st.username) st.username
        (latest_dir st.username ++ "/config.yaml")
        (latest_dir st.username ++ "/controller_config.yaml")
        st.robotname (latest_dir st.username ++ "/all_sensor.yaml")
        true false false (dist_dir st.username d)).data <:+:
      (send_settings_command (dist_dir st.username d) (latest_dir st.username)
        (make_shell (source_command st.username) st.username
          (latest_dir st.username ++ "/config.yaml")
          (latest_dir st.username ++ "/controller_config.yaml")
          st.robotname (latest_dir st.username ++ "/all_sensor.yaml")
          true false false (dist_dir st.username d))).data := by
    have heq : ∀ sh : String,
        send_settings_command (dist_dir st.username d) (latest_dir st.username)
          sh =
        ("bash -lc \"mkdir -p " ++ dist_dir st.username d ++ " && rm -f " ++
          latest_dir st.username ++ " && ln -s " ++ dist_dir st.username d ++
          " " ++ latest_dir st.username ++ " && ") ++ (sh ++ "\"") := by
      intro sh
      simp only [send_settings_command, String.append_assoc]
    refine ⟨("bash -lc \"mkdir -p " ++ dist_dir st.username d ++ " && rm -f " ++
        latest_dir st.username ++ " && ln -s " ++ dist_dir st.username d ++
        " " ++ latest_dir st.username ++ " && ").data, "\"".data, ?_⟩
    rw [heq]
    simp only [String.data_append, List.append_assoc]
  exact h1.trans h2

/-- C9: the SCP batch of `send_settings` copies files one at a time in list
order and is not transactional: when the second of three extra files fails,
the trace shows the first file already placed at its destination, nothing
after the failure (in particular no rollback), and the error propagates. -/
theorem C9_transfer_batch_not_transactional (st : RPIState)
    (d f1 f2 f3 : String) (ua us uc : Bool) (ops : Session)
    (putOk : String → Bool) (h1 : putOk f1 = true) (h2 : putOk f2 = false) :
    ∃ cmd,
      (send_settings st d ua us uc none none none [f1, f2, f3] ops putOk).2.1 =
        [Event.execCommand cmd,
         Event.scpPut f1 (dist_dir st.username d ++ "/" ++ basename f1)] ∧
      (send_settings st d ua us uc none none none [f1, f2, f3] ops putOk).2.2 =
        some (PyError.transferError f2) := by
  refine ⟨send_settings_command (dist_dir st.username d) (latest_dir st.username)
      (make_shell (source_command st.username) st.username
        (latest_dir st.username ++ "/config.yaml")
        (latest_dir st.username ++ "/controller_config.yaml")
        st.robotname (latest_dir st.username ++ "/all_sensor.yaml")
        ua us uc (dist_dir st.username d)), ?_, ?_⟩
  · rw [send_settings_trace]
    simp [putBatch, h1, h2]
  · simp [send_settings, putBatch, h1, h2]

/-- C9 witness: with the second of three files failing, the batch leaves the
first file placed and propagates the failure. -/
theorem C9_transfer_batch_not_transactional_witness :
    ∃ cmd,
      (send_settings (RPIState.init "u" "r" "h" "pw") "20240101000000"
        true false false none none none ["a.yaml", "b.yaml", "c.yaml"]
        sampleSession (fun f => f == "a.yaml")).2.1 =
        [Event.execCommand cmd,
         Event.scpPut "a.yaml"
           (dist_dir (RPIState.init "u" "r" "h" "pw").username "20240101000000" ++
             "/" ++ basename "a.yaml")] ∧
      (send_settings (RPIState.init "u" "r" "h" "pw") "20240101000000"
        true false false none none none ["a.yaml", "b.yaml", "c.yaml"]
        sampleSession (fun f => f == "a.yaml")).2.2 =
        some (PyError.transferError "b.yaml") :=
  C9_transfer_batch_not_transactional (RPIState.init "u" "r" "h" "pw")
    "20240101000000" "a.yaml" "b.yaml" "c.yaml" true false false
    sampleSession (fun f => f == "a.yaml") (by decide) (by decide)

/-- C10: reading the stdout of a session whose key is absent from the
registry raises a KeyError instead of returning `""`; on a registered
session the read follows the non-blocking `get_stdout` contract. -/
theorem C10_stdout_absent_key_raises (st : RPIState) :
    (dictGet? st.ssh_stds "sensor" = none →
      get_sensor_stdout st = Except.error (PyError.keyError "sensor")) ∧
    (dictGet? st.ssh_stds "dynamixel" = none →
      get_dynaxmiel_stdout st = Except.error (PyError.keyError "dynamixel")) ∧
    (∀ s, dictGet? st.ssh_stds "sensor" = some s →
      get_sensor_stdout st = Except.ok (get_stdout s.channel)) ∧
    (∀ s, dictGet? st.ssh_stds "dynamixel" = some s →
      get_dynaxmiel_stdout st = Except.ok (get_stdout s.channel)) := by
  refine ⟨fun h => ?_, fun h => ?_, fun s h => ?_, fun s h => ?_⟩
  · simp [get_sensor_stdout, h]
  · simp [get_dynaxmiel_stdout, h]
  · simp [get_sensor_stdout, h]
  · simp [get_dynaxmiel_stdout, h]

/-- C10 witness: the initial state (no sensor connected) raises KeyError;
after connecting, the read returns the non-blocking result. -/
theorem C10_stdout_absent_key_raises_witness :
    get_sensor_stdout (RPIState.init "u" "r" "h" "pw") =
      Except.error (PyError.keyError "sensor") ∧
    get_sensor_stdout sampleConnected =
      Except.ok (get_stdout sampleSession.channel) :=
  ⟨(C10_stdout_absent_key_raises (RPIState.init "u" "r" "h" "pw")).1 rfl,
   (C10_stdout_absent_key_raises sampleConnected).2.2.1 sampleSession
     (by decide)⟩

end RPI
